import Mathlib

/-!
Shallow embedding of the PlayBox backend core: the credential lifecycle
(user.controller.js, user.model.js), the toggle engine (like.controller.js,
subscription.controller.js) and the aggregation pipelines
(comment.controller.js, subscription.controller.js), over an explicit
document-store state.  Identifiers and timestamps are modelled as `Nat`;
the store is a list of documents per collection.
-/

namespace PlayBox

/-! ## Outcomes

`ApiResponse(statusCode, data, message)` and `ApiError(statusCode, message)`
from the utils, as one sum: every controller run ends in exactly one of the
two (asyncHandler forwards a thrown ApiError to the error middleware, which
serialises its statusCode and message). -/

inductive Outcome (α : Type) where
  | ok (status : Nat) (data : α) (msg : String)
  | err (status : Nat) (msg : String)
deriving Repr, DecidableEq

/-! ## Tokens

jwt.sign over the refresh/access secrets: a signed token is determined by
the payload it carries ({_id} plus the issue instant that jwt stamps in).
Byte-equality of two genuinely signed tokens is therefore equality of
(uid, iat); signature checking on the strings exchanged with the client is
abstracted away (every token handled in the theorems below was produced by
the signer). -/

structure RToken where
  uid : Nat
  iat : Nat
deriving Repr, DecidableEq

structure AToken where
  uid : Nat
  iat : Nat
deriving Repr, DecidableEq

/-! ## Documents -/

structure UserDoc where
  id : Nat
  username : String
  email : String
  fullname : String
  avatar : String
  coverImage : String
  watchHistory : List Nat
  password : String
  refreshToken : Option RToken
deriving Repr, DecidableEq

structure CommentDoc where
  id : Nat
  content : String
  video : Nat
  owner : Nat
  parentComment : Option Nat
  createdAt : Nat
deriving Repr, DecidableEq

structure LikeDoc where
  id : Nat
  video : Option Nat
  comment : Option Nat
  tweet : Option Nat
  likedBy : Nat
deriving Repr, DecidableEq

structure SubDoc where
  id : Nat
  subscriber : Nat
  channel : Nat
deriving Repr, DecidableEq

structure TweetDoc where
  id : Nat
  content : String
  owner : Nat
  createdAt : Nat
deriving Repr, DecidableEq

structure VideoDoc where
  id : Nat
  title : String
  owner : Nat
  isPublished : Bool
deriving Repr, DecidableEq

structure DB where
  users : List UserDoc
  comments : List CommentDoc
  likes : List LikeDoc
  subs : List SubDoc
  tweets : List TweetDoc
  videos : List VideoDoc
deriving Repr, DecidableEq

def emptyDB : DB := ⟨[], [], [], [], [], []⟩

/-! ## bcrypt (user.model.js)

bcrypt.hash(pw, 10) is modelled as an injective tagged encoding: the model
only needs that a digest is distinguishable from its input plaintext, which
holds in reality since every bcrypt digest starts with a version tag.  The
salt (and hence irreversibility) is abstracted into the fixed tag, so
bcrypt.compare recomputes the encoding. -/

def bcryptHash (pw : String) : String := "$2b$10$" ++ pw

def bcryptCompare (pw stored : String) : Bool := stored == bcryptHash pw

/-- userSchema.pre("save") (user.model.js:53-60).  The guard in the source
reads `if (this.isModified("password")) return next()`: when the password
field was just modified the hook returns without hashing, and when it was
NOT modified the hook re-hashes whatever the field currently holds. -/
def preSaveHook (passwordModified : Bool) (u : UserDoc) : UserDoc :=
  if passwordModified then u
  else { u with password := bcryptHash u.password }

/-- userSchema.methods.isPasswordMatch (user.model.js:62-64); the controllers
invoke this schema method under the name isPasswordCorrect. -/
def isPasswordMatch (u : UserDoc) (pw : String) : Bool :=
  bcryptCompare pw u.password

/-! ## Store primitives -/

def findUser (db : DB) (uid : Nat) : Option UserDoc :=
  db.users.find? (fun u => u.id == uid)

/-- document.save(): writes the document back and runs the pre("save") hook. -/
def saveUser (db : DB) (u : UserDoc) (passwordModified : Bool) : DB :=
  { db with
      users := db.users.map (fun v =>
        if v.id == u.id then preSaveHook passwordModified u else v) }

/-- User.create: inserts the new document; its password field was just set,
so the save hook runs with the password marked modified. -/
def createUser (db : DB) (u : UserDoc) : DB :=
  { db with users := db.users ++ [preSaveHook true u] }

/-! ## Credential service (user.controller.js) -/

def generateRefreshToken (uid now : Nat) : RToken := ⟨uid, now⟩

def generateAccessToken (uid now : Nat) : AToken := ⟨uid, now⟩

/-- generateAccessAndRefreshToken (user.controller.js:9-24): finds the user,
signs both tokens, stores the refresh token on the record and saves it
(user.save runs the pre("save") hook with the password unmodified).  A
lookup failure is caught and surfaced as the 500 ApiError, modelled as
`none`. -/
def generateAccessAndRefreshToken (db : DB) (userId now : Nat) :
    Option (DB × AToken × RToken) :=
  match findUser db userId with
  | none => none
  | some u =>
    let refreshTok := generateRefreshToken userId now
    let u' := { u with refreshToken := some refreshTok }
    some (saveUser db u' false, generateAccessToken userId now, refreshTok)

/-- .select("-password -refreshToken"): the projection returned to callers. -/
structure PublicUser where
  id : Nat
  username : String
  email : String
  fullname : String
  avatar : String
  coverImage : String
  watchHistory : List Nat
deriving Repr, DecidableEq

def publicView (u : UserDoc) : PublicUser :=
  ⟨u.id, u.username, u.email, u.fullname, u.avatar, u.coverImage, u.watchHistory⟩

structure AuthResp where
  user : PublicUser
  accessToken : AToken
  refreshToken : RToken
deriving Repr, DecidableEq

/-- field.trim() === "": the blank test of the register validation;
whitespace is the ASCII space in this model. -/
def isBlankStr (s : String) : Bool := s.data.all (fun c => c == ' ')

/-- username.toLowerCase(): ASCII case folding. -/
def toLowerStr (s : String) : String :=
  String.mk (s.data.map (fun c =>
    if 65 ≤ c.toNat ∧ c.toNat ≤ 90 then Char.ofNat (c.toNat + 32) else c))

/-- registerUser (user.controller.js:26-98).  The cloudinary hop is out of
scope: `avatar` is the durable url the asset host returned.  `fresh` is the
id the store assigns to the created document, `now` the request instant. -/
def registerUser (db : DB) (fullname email username password avatar : String)
    (fresh now : Nat) : DB × Outcome AuthResp :=
  if isBlankStr fullname || isBlankStr email || isBlankStr username ||
      isBlankStr password then
    (db, .err 400 "All fields are required")
  else if db.users.any (fun u => u.username == username || u.email == email) then
    (db, .err 409 "User name or email already extist")
  else
    let doc : UserDoc :=
      { id := fresh, username := toLowerStr username, email := email,
        fullname := fullname, avatar := avatar, coverImage := "",
        watchHistory := [], password := password, refreshToken := none }
    let db1 := createUser db doc
    match generateAccessAndRefreshToken db1 fresh now with
    | none => (db1, .err 500 "Something went wrong while generating tokens")
    | some (db2, acc, refr) =>
      match findUser db2 fresh with
      | none => (db2, .err 500 "Something went wrong while registering the user")
      | some u' =>
        (db2, .ok 201 ⟨publicView u', acc, refr⟩ "User registered successfully")

/-- loginUser (user.controller.js:100-144).  findOne({$or:[{username},{email}]})
matches on whichever identifier the request supplied. -/
def loginUser (db : DB) (username? email? : Option String) (password : String)
    (now : Nat) : DB × Outcome AuthResp :=
  if username?.isNone && email?.isNone then
    (db, .err 400 "Email or username is required")
  else
    match db.users.find? (fun u =>
        username? == some u.username || email? == some u.email) with
    | none => (db, .err 404 "User not found")
    | some u =>
      if !(isPasswordMatch u password) then
        (db, .err 401 "Invalid user credentials")
      else
        match generateAccessAndRefreshToken db u.id now with
        | none => (db, .err 500 "Something went wrong while generating tokens")
        | some (db', acc, refr) =>
          match findUser db' u.id with
          | none => (db', .err 500 "User not found")
          | some u' =>
            (db', .ok 200 ⟨publicView u', acc, refr⟩ "User logged in successfully")

/-- Executing a `$set` on the refreshToken field: the assigned JS value is
`none` for `undefined`.  Mongoose strips undefined-valued keys from update
documents before running them, so a `$set: { refreshToken: undefined }`
carries no keys and applies no change to the record. -/
def applySetRefreshToken (v : Option (Option RToken)) (u : UserDoc) : UserDoc :=
  match v with
  | none => u
  | some rt => { u with refreshToken := rt }

/-- logoutUser (user.controller.js:146-171): findByIdAndUpdate with
`$set: { refreshToken: undefined }`.  Because Mongoose drops the
undefined-valued key, the matched record is written back unchanged — the
stored refresh token survives the logout (the handler still returns 200 and
clears the cookies).  findByIdAndUpdate does not run the pre("save") hook. -/
def logoutUser (db : DB) (userId : Nat) : DB :=
  { db with
      users := db.users.map (fun u =>
        if u.id == userId then applySetRefreshToken none u else u) }

/-- logoutUser, second copy (subscription.controller.js:385-410):
findByIdAndUpdate with `$unset: { refreshToken: 1 }`, which does remove the
stored refresh token from the record. -/
def logoutUserV2 (db : DB) (userId : Nat) : DB :=
  { db with
      users := db.users.map (fun u =>
        if u.id == userId then { u with refreshToken := none } else u) }

structure RefreshResp where
  accessToken : AToken
  refreshToken : Option RToken
deriving Repr, DecidableEq

/-- refreshAccessToken (user.controller.js:173-209).  jwt.verify is modelled
as reading the signed payload (the tokens the theorems pass in were produced
by the signer).  Any failure inside the try block is rethrown by the catch
as a 401.  The response destructures `newRefreshToken` from
generateAccessAndRefreshToken, which returns the key `refreshToken` instead,
so the refreshToken sent back in the body is undefined (`none`) even though
the freshly signed token is persisted on the account. -/
def refreshAccessToken (db : DB) (incoming : Option RToken) (now : Nat) :
    DB × Outcome RefreshResp :=
  match incoming with
  | none => (db, .err 401 "Unauthorized request")
  | some tok =>
    match findUser db tok.uid with
    | none => (db, .err 401 "Invalid refresh token")
    | some u =>
      if u.refreshToken == some tok then
        match generateAccessAndRefreshToken db tok.uid now with
        | none => (db, .err 401 "Something went wrong while generating tokens")
        | some (db', acc, _) =>
          (db', .ok 200 ⟨acc, none⟩ "Access token refreshed successfully")
      else (db, .err 401 "Refresh token is expired")

/-- changeCurrentPassword (subscription.controller.js:450-461): verifies the
old password via the schema method, assigns the new one and saves — the save
runs the pre("save") hook with the password freshly modified.  The controller
runs behind verifyJWT, so req.user resolves; an absent record is modelled as
the crash the null dereference would cause. -/
def changeCurrentPassword (db : DB) (userId : Nat) (oldPassword newPassword : String) :
    DB × Outcome Unit :=
  match findUser db userId with
  | none => (db, .err 500 "Internal Server Error")
  | some u =>
    if !(isPasswordMatch u oldPassword) then
      (db, .err 401 "Invalid password")
    else
      (saveUser db { u with password := newPassword } true,
       .ok 200 () "Password changed successfully")

/-! ## Toggle engine (like.controller.js, subscription.controller.js)

Incoming route ids arrive as strings; isValidObjectId gates them, so a
malformed id is modelled as `none` and a well-formed one as `some id`.
`fresh` is the id the store assigns to a created relation row. -/

/-- toggleVideoLike (like.controller.js:7-51): findOne on (video, likedBy),
delete the row if present (200 "unliked"), create it otherwise
(201 "liked"). -/
def toggleVideoLike (db : DB) (videoId : Option Nat) (userId fresh : Nat) :
    DB × Outcome LikeDoc :=
  match videoId with
  | none => (db, .err 400 "Invalid video ID")
  | some vid =>
    match db.likes.find? (fun l => l.video == some vid && l.likedBy == userId) with
    | some existing =>
      ({ db with likes := db.likes.filter (fun l => l.id != existing.id) },
       .ok 200 existing "video unliked successfully")
    | none =>
      let newLike : LikeDoc :=
        { id := fresh, video := some vid, comment := none, tweet := none,
          likedBy := userId }
      ({ db with likes := db.likes ++ [newLike] },
       .ok 201 newLike "video liked successfully")

/-- toggleSubscription (subscription.controller.js:9-51): reject a malformed
channel id, reject self-subscription, then delete-if-present (200
"Unsubscribed") / create-if-absent (201 "Subscribed").  The second component
is the HTTP response the handler sends, if any. -/
def toggleSubscription (db : DB) (channelId : Option Nat) (subscriberId fresh : Nat) :
    DB × Option (Outcome Unit) :=
  match channelId with
  | none => (db, some (.err 400 "Invalid channel ID"))
  | some cid =>
    if subscriberId == cid then
      (db, some (.err 400 "You cannot subscribe to your own channel"))
    else
      match db.subs.find? (fun s => s.channel == cid && s.subscriber == subscriberId) with
      | some existing =>
        ({ db with subs := db.subs.filter (fun s => s.id != existing.id) },
         some (.ok 200 () "Unsubscribed successfully"))
      | none =>
        ({ db with subs := db.subs ++ [⟨fresh, subscriberId, cid⟩] },
         some (.ok 201 () "Subscribed successfully"))

/-- toggleSubscription, second copy (subscription.controller.js:143-181):
identical until the presence check, but the absent branch ends after the
explanatory comment block — no Subscription.create, no response sent (the
handler falls off the end, so the request gets no reply). -/
def toggleSubscriptionV2 (db : DB) (channelId : Option Nat) (subscriberId : Nat) :
    DB × Option (Outcome Unit) :=
  match channelId with
  | none => (db, some (.err 400 "Invalid channel ID"))
  | some cid =>
    if subscriberId == cid then
      (db, some (.err 400 "You cannot subscribe to your own channel"))
    else
      match db.subs.find? (fun s => s.channel == cid && s.subscriber == subscriberId) with
      | some existing =>
        ({ db with subs := db.subs.filter (fun s => s.id != existing.id) },
         some (.ok 200 () "Unsubscribed successfully"))
      | none => (db, none)

/-! ## Sorting

$sort on a single numeric key.  An insertion sort keyed by a boolean
comparison stands in for the store's sort stage. -/

def insertSorted (le : α → α → Bool) (a : α) : List α → List α
  | [] => [a]
  | b :: l => if le a b then a :: b :: l else b :: insertSorted le a l

def sortWith (le : α → α → Bool) : List α → List α
  | [] => []
  | a :: l => insertSorted le a (sortWith le l)

/-- createdAt ascending (sortOption 1). -/
def byOldest (a b : CommentDoc) : Bool := a.createdAt ≤ b.createdAt

/-- createdAt descending (sortOption -1). -/
def byNewest (a b : CommentDoc) : Bool := b.createdAt ≤ a.createdAt

/-! ## Threaded comment listing (comment.controller.js:7-174) -/

/-- Owner projection { _id, username, avatar } produced by the $lookup into
users followed by $arrayElemAt 0; `none` when the foreign row is missing. -/
structure OwnerView where
  id : Nat
  username : String
  avatar : String
deriving Repr, DecidableEq

structure ReplyView where
  id : Nat
  content : String
  createdAt : Nat
  likeCount : Nat
  isLiked : Bool
  owner : Option OwnerView
deriving Repr, DecidableEq

structure CommentView where
  id : Nat
  content : String
  createdAt : Nat
  likeCount : Nat
  isLiked : Bool
  replyCount : Nat
  replies : List ReplyView
  owner : Option OwnerView
  video : Option Nat
deriving Repr, DecidableEq

/-- Like rows whose `comment` reference is this comment ($lookup likes on
comment). -/
def commentLikes (db : DB) (cid : Nat) : List LikeDoc :=
  db.likes.filter (fun l => l.comment == some cid)

def commentLikeCount (db : DB) (cid : Nat) : Nat := (commentLikes db cid).length

/-- $in [viewer, "$commentLikes.likedBy"]. -/
def commentIsLiked (db : DB) (viewer cid : Nat) : Bool :=
  ((commentLikes db cid).map (fun l => l.likedBy)).contains viewer

def ownerViewOf (db : DB) (uid : Nat) : Option OwnerView :=
  (db.users.find? (fun u => u.id == uid)).map (fun u => ⟨u.id, u.username, u.avatar⟩)

/-- Comment rows whose parentComment is this comment. -/
def repliesOf (db : DB) (pid : Nat) : List CommentDoc :=
  db.comments.filter (fun c => c.parentComment == some pid)

/-- replyCount: $lookup counting all rows with parentComment = this id. -/
def replyCountOf (db : DB) (pid : Nat) : Nat := (repliesOf db pid).length

def annotateReply (db : DB) (viewer : Nat) (c : CommentDoc) : ReplyView :=
  { id := c.id, content := c.content, createdAt := c.createdAt,
    likeCount := commentLikeCount db c.id,
    isLiked := commentIsLiked db viewer c.id,
    owner := ownerViewOf db c.owner }

/-- The replies sub-pipeline: match parentComment = id, $sort createdAt -1,
$limit 2, annotate each with owner / likeCount / isLiked. -/
def repliesPreview (db : DB) (viewer pid : Nat) : List ReplyView :=
  ((sortWith byNewest (repliesOf db pid)).take 2).map (annotateReply db viewer)

def annotateComment (db : DB) (viewer : Nat) (c : CommentDoc) : CommentView :=
  { id := c.id, content := c.content, createdAt := c.createdAt,
    likeCount := commentLikeCount db c.id,
    isLiked := commentIsLiked db viewer c.id,
    replyCount := replyCountOf db c.id,
    replies := repliesPreview db viewer c.id,
    owner := ownerViewOf db c.owner,
    video := (db.videos.find? (fun v => v.id == c.video)).map (fun v => v.id) }

/-- Top-level comments of a video: $match { video, parentComment: null }. -/
def topLevelComments (db : DB) (vid : Nat) : List CommentDoc :=
  db.comments.filter (fun c => c.video == vid && c.parentComment == none)

/-- getVideoComments (comment.controller.js:7-174): match, sort by createdAt
per the isOldest flag, annotate each row (the $lookup stages add fields and
never change row count or order), then $skip (page-1)*limit and $limit.
The aggregate always yields an array, so the `if (!comments)` 404 guard
never fires: an empty result is returned as an empty 200 page. -/
def getVideoComments (db : DB) (videoId : Option Nat) (viewer page limit : Nat)
    (isOldest : Bool) : Outcome (List CommentView) :=
  match videoId with
  | none => .err 400 "Invalid video ID"
  | some vid =>
    let sorted := sortWith (if isOldest then byOldest else byNewest)
      (topLevelComments db vid)
    let annotated := sorted.map (annotateComment db viewer)
    .ok 200 ((annotated.drop ((page - 1) * limit)).take limit)
      "Comments fetched successfully"

/-- The rows of a successful page; an error carries no rows. -/
def pageData : Outcome (List CommentView) → List CommentView
  | .ok _ rows _ => rows
  | .err _ _ => []

/-! ## Comment mutations (comment.controller.js:218-334) -/

/-- addComment (comment.controller.js:218-250).  The body's parentComment is
absent (`none`), present but malformed (`some none`) or a well-formed id
(`some (some pid)`); only the format is checked — neither existence nor
top-levelness of the referenced parent. -/
def addComment (db : DB) (videoId : Option Nat) (content : String)
    (parentComment : Option (Option Nat)) (user? : Option Nat)
    (fresh now : Nat) : DB × Outcome CommentDoc :=
  match videoId with
  | none => (db, .err 400 "Invalid video ID")
  | some vid =>
    if parentComment == some none then
      (db, .err 400 "Invalid parent comment ID")
    else if user?.isNone then
      (db, .err 401 "Unauthorized")
    else if content == "" then
      (db, .err 400 "Content is required")
    else
      let parent : Option Nat :=
        match parentComment with
        | some (some p) => some p
        | _ => none
      let c : CommentDoc :=
        { id := fresh, content := content, video := vid,
          owner := user?.getD 0, parentComment := parent, createdAt := now }
      ({ db with comments := db.comments ++ [c] },
       .ok 201 c "Comment added successfully")

/-- updateComment (comment.controller.js:252-300).  The source passes the
filter object {_id: commentId, owner: req.user._id} as the *id* argument of
findByIdAndUpdate; Mongoose's ObjectId cast extracts the `_id` field from
such an object, so the query matches on the comment id alone and the owner
constraint is silently dropped — any authenticated caller's edit of an
existing comment succeeds, contrary to the function's own comments about
ensuring only the original commenter can update. -/
def updateComment (db : DB) (commentId : Option Nat) (content : String)
    (user? : Option Nat) : DB × Outcome CommentDoc :=
  match commentId with
  | none => (db, .err 400 "Invalid comment ID")
  | some cid =>
    match user? with
    | none => (db, .err 401 "Unauthorized")
    | some _uid =>
      if content == "" then (db, .err 400 "Content is required")
      else
        match db.comments.find? (fun c => c.id == cid) with
        | none => (db, .err 500 "Something went wrong while updating the comment")
        | some c =>
          let c' := { c with content := content }
          ({ db with comments := db.comments.map (fun x => if x.id == c.id then c' else x) },
           .ok 200 c' "Comment updated successfully")

/-- deleteComment (comment.controller.js:302-334): findOneAndDelete on
{_id, owner}; when the caller is not the owner nothing matches, nothing is
deleted, and the controller raises the 500 below. -/
def deleteComment (db : DB) (commentId : Option Nat) (user? : Option Nat) :
    DB × Outcome CommentDoc :=
  match commentId with
  | none => (db, .err 400 "Invalid comment ID")
  | some cid =>
    match user? with
    | none => (db, .err 401 "Unauthorized")
    | some uid =>
      match db.comments.find? (fun c => c.id == cid && c.owner == uid) with
      | none => (db, .err 500 "Something went wrong while deleting the comment")
      | some c =>
        ({ db with comments := db.comments.filter (fun x => x.id != c.id) },
         .ok 200 c "Comment deleted successfully")

/-! ## Tweet mutations (tweet.controller.js:53-113) -/

/-- updateTweet (tweet.controller.js:53-88): loads the tweet, compares owner
to caller and raises 403 on mismatch before updating. -/
def updateTweet (db : DB) (tweetId : Option Nat) (content : String) (userId : Nat) :
    DB × Outcome TweetDoc :=
  match tweetId with
  | none => (db, .err 400 "Invalid tweet ID")
  | some tid =>
    if content == "" then (db, .err 400 "Content is required")
    else
      match db.tweets.find? (fun t => t.id == tid) with
      | none => (db, .err 404 "Tweet not found")
      | some tw =>
        if tw.owner != userId then
          (db, .err 403 "You are not authorized to update this tweet")
        else
          let tw' := { tw with content := content }
          ({ db with tweets := db.tweets.map (fun x => if x.id == tw.id then tw' else x) },
           .ok 200 tw' "Tweet updated successfully")

/-! ## Subscription listing (subscription.controller.js:214-237) -/

/-- populate("channel", "_id name email"): the channel id is replaced by the
selected user fields (the schema has no `name` field, so only _id and email
materialise); a dangling reference populates to null. -/
structure PopulatedChannel where
  id : Nat
  email : String
deriving Repr, DecidableEq

structure SubChannelView where
  id : Nat
  subscriber : Nat
  channel : Option PopulatedChannel
deriving Repr, DecidableEq

/-- getSubscribedChannels (subscription.controller.js:214-237): find all
subscription rows of the subscriber, populate the channel — and raise 404
when the list is empty. -/
def getSubscribedChannels (db : DB) (subscriberId : Option Nat) :
    Outcome (List SubChannelView) :=
  match subscriberId with
  | none => .err 400 "Invalid subscriber ID"
  | some sid =>
    let rows := (db.subs.filter (fun s => s.subscriber == sid)).map (fun s =>
      ({ id := s.id, subscriber := s.subscriber,
         channel := (db.users.find? (fun u => u.id == s.channel)).map
           (fun u => ⟨u.id, u.email⟩) } : SubChannelView))
    if rows.isEmpty then .err 404 "No subscribed channels found"
    else .ok 200 rows "Subscribed channels fetched successfully"

/-! ## Pagination

Page p (1-based) of the pipeline output is skip (p-1)*limit, take limit;
`pagesConcat f n` concatenates pages 1 through n in order. -/

def pagesConcat (f : Nat → List β) : Nat → List β
  | 0 => []
  | n + 1 => pagesConcat f n ++ f (n + 1)

/-! ## List lemmas for the sort and pagination stages -/

theorem insertSorted_perm (le : α → α → Bool) (a : α) (l : List α) :
    (insertSorted le a l).Perm (a :: l) := by
  induction l with
  | nil => exact List.Perm.refl _
  | cons b l ih =>
    cases hab : le a b with
    | true => simp [insertSorted, hab]
    | false =>
      simp only [insertSorted, hab, Bool.false_eq_true, if_false]
      exact (ih.cons b).trans (List.Perm.swap a b l)

theorem sortWith_perm (le : α → α → Bool) (l : List α) :
    (sortWith le l).Perm l := by
  induction l with
  | nil => exact List.Perm.refl _
  | cons a l ih =>
    exact (insertSorted_perm le a (sortWith le l)).trans (ih.cons a)

theorem pairwise_insertSorted (le : α → α → Bool)
    (htot : ∀ a b, le a b = true ∨ le b a = true)
    (htrans : ∀ a b c, le a b = true → le b c = true → le a c = true)
    (a : α) (l : List α)
    (h : l.Pairwise (fun x y => le x y = true)) :
    (insertSorted le a l).Pairwise (fun x y => le x y = true) := by
  induction l with
  | nil => simp [insertSorted]
  | cons b l ih =>
    rcases List.pairwise_cons.1 h with ⟨hb, hl⟩
    cases hab : le a b with
    | true =>
      simp only [insertSorted, hab, if_true]
      refine List.pairwise_cons.2 ⟨?_, h⟩
      intro y hy
      rcases List.mem_cons.1 hy with rfl | hy
      · exact hab
      · exact htrans a b y hab (hb y hy)
    | false =>
      have hba : le b a = true := by
        rcases htot a b with h' | h'
        · rw [hab] at h'; cases h'
        · exact h'
      simp only [insertSorted, hab, Bool.false_eq_true, if_false]
      refine List.pairwise_cons.2 ⟨?_, ih hl⟩
      intro y hy
      rcases List.mem_cons.1 ((insertSorted_perm le a l).mem_iff.1 hy) with rfl | hy'
      · exact hba
      · exact hb y hy'

theorem pairwise_sortWith (le : α → α → Bool)
    (htot : ∀ a b, le a b = true ∨ le b a = true)
    (htrans : ∀ a b c, le a b = true → le b c = true → le a c = true)
    (l : List α) :
    (sortWith le l).Pairwise (fun x y => le x y = true) := by
  induction l with
  | nil => simp [sortWith]
  | cons a l ih =>
    exact pairwise_insertSorted le htot htrans a (sortWith le l) ih

theorem pagesConcat_take (k : Nat) (l : List β) (n : Nat) :
    pagesConcat (fun p => (l.drop ((p - 1) * k)).take k) n = l.take (n * k) := by
  induction n with
  | zero => simp [pagesConcat]
  | succ n ih =>
    simp only [pagesConcat, ih, Nat.add_sub_cancel, Nat.succ_mul]
    exact (List.take_add l (n * k) k).symm

theorem byOldest_total : ∀ a b : CommentDoc, byOldest a b = true ∨ byOldest b a = true := by
  intro a b
  simp only [byOldest, decide_eq_true_eq]
  omega

theorem byOldest_trans : ∀ a b c : CommentDoc,
    byOldest a b = true → byOldest b c = true → byOldest a c = true := by
  intro a b c
  simp only [byOldest, decide_eq_true_eq]
  omega

theorem byNewest_total : ∀ a b : CommentDoc, byNewest a b = true ∨ byNewest b a = true := by
  intro a b
  simp only [byNewest, decide_eq_true_eq]
  omega

theorem byNewest_trans : ∀ a b c : CommentDoc,
    byNewest a b = true → byNewest b c = true → byNewest a c = true := by
  intro a b c
  simp only [byNewest, decide_eq_true_eq]
  omega

/-- find? over a keyed in-place replacement: replacing the documents whose
key is k (with replacements that keep key k) commutes with the keyed lookup. -/
theorem find?_map_update (key : α → Nat) (k : Nat) (g : α → α)
    (hg : ∀ a, key a = k → key (g a) = k) (l : List α) :
    List.find? (fun a => key a == k) (l.map (fun a => if key a == k then g a else a)) =
      (List.find? (fun a => key a == k) l).map
        (fun a => if key a == k then g a else a) := by
  induction l with
  | nil => rfl
  | cons a l ih =>
    by_cases h : key a = k
    · have hk : (key a == k) = true := beq_iff_eq.2 h
      have hgk : (key (g a) == k) = true := beq_iff_eq.2 (hg a h)
      simp only [List.map_cons, hk, if_true]
      rw [@List.find?_cons_of_pos _ (fun x => key x == k) (g a) _ hgk,
        @List.find?_cons_of_pos _ (fun x => key x == k) a _ hk]
      simp [hk, h]
    · have hk : (key a == k) = false := beq_eq_false_iff_ne.2 h
      simp only [List.map_cons, hk, Bool.false_eq_true, if_false]
      rw [@List.find?_cons_of_neg _ (fun x => key x == k) a _ (by simp [hk]),
        @List.find?_cons_of_neg _ (fun x => key x == k) a _ (by simp [hk])]
      exact ih

theorem find?_key_eq {key : α → Nat} {k : Nat} {l : List α} {x : α}
    (h : List.find? (fun a => key a == k) l = some x) : key x = k := by
  have hx := List.find?_some h
  simpa using hx

/-- Looking up the written-back document after a save: the keyed lookup sees
the saved document (with the pre("save") hook applied) exactly when the key
resolved before. -/
theorem findUser_saveUser (db : DB) (u' : UserDoc) (pm : Bool) :
    findUser (saveUser db u' pm) u'.id =
      (findUser db u'.id).map (fun _ => preSaveHook pm u') := by
  unfold findUser saveUser
  rw [find?_map_update (fun w : UserDoc => w.id) u'.id (fun _ => preSaveHook pm u')
      (fun a _ => by cases pm <;> simp [preSaveHook]) db.users]
  cases hf : List.find? (fun v : UserDoc => v.id == u'.id) db.users with
  | none => rfl
  | some x =>
    have hx : x.id = u'.id := find?_key_eq hf
    simp [hx]

/-! ## Claim theorems -/

def c2User : UserDoc :=
  { id := 7, username := "alice", email := "alice@mail", fullname := "Alice",
    avatar := "a.png", coverImage := "", watchHistory := [],
    password := bcryptHash "oldpw", refreshToken := none }

def c2DB : DB := { emptyDB with users := [c2User] }

/-- C2: the claim says the stored password field only ever holds a one-way
hash.  The pre("save") guard is inverted — it skips hashing exactly when the
password was just modified — so changeCurrentPassword persists the new
password in plaintext: starting from account 7 whose field holds
bcrypt("oldpw"), changing the password to "newpw" succeeds and leaves the
literal string "newpw" (not its hash) on the record. -/
theorem c2_password_change_stores_plaintext :
    (changeCurrentPassword c2DB 7 "oldpw" "newpw").2 =
      Outcome.ok 200 () "Password changed successfully" ∧
    (findUser (changeCurrentPassword c2DB 7 "oldpw" "newpw").1 7).map
      UserDoc.password = some "newpw" ∧
    "newpw" ≠ bcryptHash "newpw" := by
  refine ⟨rfl, rfl, by decide⟩

/-- C3: the toggleSubscription copy at subscription.controller.js:143-181 is
missing the create branch: starting from no subscription, toggling
(subscriber 1, channel 2) inserts nothing and sends no response, while the
copy at lines 9-51 on the same input inserts the relation row and reports
201 "Subscribed successfully" as the claim describes. -/
theorem c3_subscription_toggle_missing_create :
    toggleSubscriptionV2 emptyDB (some 2) 1 = (emptyDB, none) ∧
    toggleSubscription emptyDB (some 2) 1 99 =
      ({ emptyDB with subs := [⟨99, 1, 2⟩] },
        some (.ok 201 () "Subscribed successfully")) := by
  refine ⟨rfl, rfl⟩

def c5User : UserDoc :=
  { id := 1, username := "carol", email := "carol@mail", fullname := "Carol",
    avatar := "", coverImage := "", watchHistory := [],
    password := bcryptHash "pw", refreshToken := none }

def c5DB : DB := { emptyDB with users := [c5User] }

/-- C5 counterexample: account 1 exists (the root entity is valid and
resolvable) yet has no subscriptions, and getSubscribedChannels fails with
404 instead of returning an empty structure. -/
theorem c5_empty_result_is_error_counterexample :
    (findUser c5DB 1).isSome = true ∧
    getSubscribedChannels c5DB (some 1) =
      .err 404 "No subscribed channels found" := by
  refine ⟨rfl, rfl⟩

/-- C5 amended: getVideoComments does return an empty 200 page for a valid
video with no comments, and a malformed id is a 400 client error in both
operations — but getSubscribedChannels turns an empty result set for a valid
subscriber into a 404 error. -/
theorem c5_empty_results (db : DB) (vid viewer page limit sid : Nat)
    (isOldest : Bool)
    (hempty : topLevelComments db vid = [])
    (hnosub : db.subs.filter (fun s => s.subscriber == sid) = []) :
    getVideoComments db (some vid) viewer page limit isOldest =
      .ok 200 [] "Comments fetched successfully" ∧
    getSubscribedChannels db (some sid) = .err 404 "No subscribed channels found" ∧
    getVideoComments db none viewer page limit isOldest = .err 400 "Invalid video ID" ∧
    getSubscribedChannels db none = .err 400 "Invalid subscriber ID" := by
  refine ⟨?_, ?_, rfl, rfl⟩
  · simp [getVideoComments, hempty, sortWith]
  · simp [getSubscribedChannels, hnosub]

theorem c5_empty_results_witness :
    getVideoComments c5DB (some 42) 1 1 10 false =
      .ok 200 [] "Comments fetched successfully" ∧
    getSubscribedChannels c5DB (some 1) = .err 404 "No subscribed channels found" ∧
    getVideoComments c5DB none 1 1 10 false = .err 400 "Invalid video ID" ∧
    getSubscribedChannels c5DB none = .err 400 "Invalid subscriber ID" :=
  c5_empty_results c5DB 42 1 1 10 1 false rfl rfl

def c8Comment : CommentDoc :=
  { id := 60, content := "hello", video := 50, owner := 1,
    parentComment := none, createdAt := 5 }

def c8Tweet : TweetDoc := { id := 80, content := "tw", owner := 1, createdAt := 6 }

def c8DB : DB := { emptyDB with comments := [c8Comment], tweets := [c8Tweet] }

/-- C8: ownership enforcement on comment mutations.  Comment 60 is owned by
account 1.  An edit by authenticated account 2 succeeds with 200 and
mutates the stored record — findByIdAndUpdate casts the {_id, owner} filter
object to its _id, dropping the owner check the function's own comments
promise — while a delete by account 2 (properly owner-scoped via
findOneAndDelete) changes nothing but fails with 500, not Forbidden; only
the tweet mutation answers ownership mismatch with 403. -/
theorem c8_comment_ownership_not_enforced :
    (updateComment c8DB (some 60) "edited" (some 2)).2 =
      .ok 200 { c8Comment with content := "edited" } "Comment updated successfully" ∧
    ((updateComment c8DB (some 60) "edited" (some 2)).1.comments.find?
      (fun c => c.id == 60)).map CommentDoc.content = some "edited" ∧
    deleteComment c8DB (some 60) (some 2) =
      (c8DB, .err 500 "Something went wrong while deleting the comment") ∧
    updateTweet c8DB (some 80) "edited" 2 =
      (c8DB, .err 403 "You are not authorized to update this tweet") := by
  refine ⟨rfl, rfl, rfl, rfl⟩

def c9Alice : UserDoc :=
  { id := 1, username := "alice", email := "alice@mail", fullname := "Alice",
    avatar := "a.png", coverImage := "", watchHistory := [],
    password := bcryptHash "pw", refreshToken := none }

def c9Video : VideoDoc := { id := 50, title := "v", owner := 1, isPublished := true }

def c9DB : DB := { emptyDB with users := [c9Alice], videos := [c9Video] }

/-- C9 counterexample: after posting top-level comment 60 and reply 61
(parent 60), addComment accepts a third comment whose parent is 61 — a
reply whose parent is itself a reply — so the two-level invariant the claim
states is not enforced by the creation operation. -/
theorem c9_two_level_counterexample :
    (addComment
      (addComment
        (addComment c9DB (some 50) "c1" none (some 1) 60 10).1
        (some 50) "r1" (some (some 60)) (some 1) 61 11).1
      (some 50) "r2" (some (some 61)) (some 1) 62 12).2 =
      .ok 201 ⟨62, "r2", 50, 1, some 61, 12⟩ "Comment added successfully" ∧
    ((addComment
        (addComment c9DB (some 50) "c1" none (some 1) 60 10).1
        (some 50) "r1" (some (some 60)) (some 1) 61 11).1.comments.find?
      (fun c => c.id == 61)).map CommentDoc.parentComment = some (some 60) := by
  refine ⟨rfl, rfl⟩

/-- C9 amended: addComment checks only that a supplied parent id is
well-formed; it never checks that the id resolves to a comment, let alone a
top-level one, so it accepts any well-formed parent (including a reply's id)
and records it verbatim — nesting depth is not bounded at two levels by the
creation operation. -/
theorem c9_add_comment_parent_unchecked (db : DB) (vid uid pid fresh now : Nat)
    (content : String) (hcontent : content ≠ "") :
    addComment db (some vid) content (some (some pid)) (some uid) fresh now =
      ({ db with comments := db.comments ++
          [{ id := fresh, content := content, video := vid, owner := uid,
             parentComment := some pid, createdAt := now }] },
       .ok 201
         { id := fresh, content := content, video := vid, owner := uid,
           parentComment := some pid, createdAt := now }
         "Comment added successfully") := by
  simp [addComment, hcontent]

theorem c9_add_comment_parent_unchecked_witness :
    addComment c9DB (some 50) "deep" (some (some 61)) (some 1) 62 12 =
      ({ c9DB with comments := c9DB.comments ++
          [{ id := 62, content := "deep", video := 50, owner := 1,
             parentComment := some 61, createdAt := 12 }] },
       .ok 201
         { id := 62, content := "deep", video := 50, owner := 1,
           parentComment := some 61, createdAt := 12 }
         "Comment added successfully") :=
  c9_add_comment_parent_unchecked c9DB 50 1 61 62 12 "deep" (by decide)

def c1User : UserDoc :=
  { id := 3, username := "bob", email := "bob@mail", fullname := "Bob",
    avatar := "", coverImage := "", watchHistory := [],
    password := bcryptHash "pw", refreshToken := some ⟨3, 1⟩ }

def c1DB : DB := { emptyDB with users := [c1User] }

/-- C1: refresh-token rotation invalidates the superseded token.  If the
account's stored refresh token is the one signed at instant t1 and a refresh
is performed at a different instant t2, the refresh succeeds, persists the
token signed at t2, and a subsequent refresh presenting the t1 token fails
with 401 because it no longer byte-matches the stored value. -/
theorem c1_refresh_rotation_invalidates (db : DB) (u : UserDoc) (t1 t2 t3 : Nat)
    (hu : findUser db u.id = some u)
    (hr : u.refreshToken = some ⟨u.id, t1⟩)
    (hne : t1 ≠ t2) :
    refreshAccessToken db (some ⟨u.id, t1⟩) t2 =
      (saveUser db { u with refreshToken := some ⟨u.id, t2⟩ } false,
        .ok 200 ⟨⟨u.id, t2⟩, none⟩ "Access token refreshed successfully") ∧
    (refreshAccessToken (refreshAccessToken db (some ⟨u.id, t1⟩) t2).1
        (some ⟨u.id, t1⟩) t3).2 = .err 401 "Refresh token is expired" := by
  have h1 : refreshAccessToken db (some ⟨u.id, t1⟩) t2 =
      (saveUser db { u with refreshToken := some ⟨u.id, t2⟩ } false,
        .ok 200 ⟨⟨u.id, t2⟩, none⟩ "Access token refreshed successfully") := by
    simp only [refreshAccessToken]
    rw [hu]
    simp [hr, generateAccessAndRefreshToken, hu, generateRefreshToken,
      generateAccessToken]
  refine ⟨h1, ?_⟩
  rw [h1]
  have hfind : findUser (saveUser db { u with refreshToken := some ⟨u.id, t2⟩ } false)
      u.id = some (preSaveHook false { u with refreshToken := some ⟨u.id, t2⟩ }) := by
    have h2 := findUser_saveUser db { u with refreshToken := some ⟨u.id, t2⟩ } false
    rw [show ({ u with refreshToken := some ⟨u.id, t2⟩ } : UserDoc).id = u.id from rfl]
      at h2
    rw [h2, hu]
    rfl
  have hne' : t2 ≠ t1 := fun h => hne h.symm
  have hstored : (preSaveHook false
      { u with refreshToken := some ⟨u.id, t2⟩ }).refreshToken = some ⟨u.id, t2⟩ := by
    simp [preSaveHook]
  simp only [refreshAccessToken]
  rw [hfind]
  simp [hstored, hne']

theorem c1_refresh_rotation_invalidates_witness :
    refreshAccessToken c1DB (some ⟨c1User.id, 1⟩) 2 =
      (saveUser c1DB { c1User with refreshToken := some ⟨c1User.id, 2⟩ } false,
        .ok 200 ⟨⟨c1User.id, 2⟩, none⟩ "Access token refreshed successfully") ∧
    (refreshAccessToken (refreshAccessToken c1DB (some ⟨c1User.id, 1⟩) 2).1
        (some ⟨c1User.id, 1⟩) 5).2 = .err 401 "Refresh token is expired" :=
  c1_refresh_rotation_invalidates c1DB c1User 1 2 5 rfl rfl (by decide)

def c6User : UserDoc :=
  { id := 4, username := "dan", email := "dan@mail", fullname := "Dan",
    avatar := "", coverImage := "", watchHistory := [],
    password := bcryptHash "pw", refreshToken := some ⟨4, 2⟩ }

def c6DB : DB := { emptyDB with users := [c6User] }

/-- C6: logout invalidation.  Account 4 stores refresh token (uid 4, iat 2).
The user.controller.js logout updates with `$set: {refreshToken: undefined}`;
Mongoose strips the undefined-valued key, so the record is unchanged after
logout and a refresh presenting the pre-logout token still succeeds with
200.  Only the subscription.controller.js:385-410 copy ($unset) removes the
token, after which the same refresh fails with 401. -/
theorem c6_logout_set_undefined_noop :
    (findUser (logoutUser c6DB 4) 4).map UserDoc.refreshToken =
      some (some ⟨4, 2⟩) ∧
    (refreshAccessToken (logoutUser c6DB 4) (some ⟨4, 2⟩) 9).2 =
      .ok 200 ⟨⟨4, 9⟩, none⟩ "Access token refreshed successfully" ∧
    (findUser (logoutUserV2 c6DB 4) 4).map UserDoc.refreshToken = some none ∧
    (refreshAccessToken (logoutUserV2 c6DB 4) (some ⟨4, 2⟩) 9).2 =
      .err 401 "Refresh token is expired" := by
  refine ⟨rfl, rfl, rfl, rfl⟩

theorem findUser_id_eq {db : DB} {k : Nat} {x : UserDoc}
    (h : findUser db k = some x) : x.id = k := by
  unfold findUser at h
  exact find?_key_eq h

/-- C10: the user object in every successful login and register response is
exactly the stored record with the password and refresh-token fields
projected away, and that projection is oblivious to both fields — two
records differing only in password hash (or stored token) produce identical
response user objects. -/
theorem c10_credential_non_exposure
    (db db' : DB) (un? em? : Option String) (pw : String) (t st : Nat)
    (resp : AuthResp) (msg : String)
    (db2 db2' : DB) (fn em un pw2 av : String) (fresh t2 st2 : Nat)
    (resp2 : AuthResp) (msg2 : String)
    (v : UserDoc) (p : String) (rt : Option RToken)
    (hl : loginUser db un? em? pw t = (db', .ok st resp msg))
    (hr : registerUser db2 fn em un pw2 av fresh t2 = (db2', .ok st2 resp2 msg2)) :
    (findUser db' resp.user.id).map publicView = some resp.user ∧
    (findUser db2' resp2.user.id).map publicView = some resp2.user ∧
    publicView { v with password := p, refreshToken := rt } = publicView v := by
  refine ⟨?_, ?_, rfl⟩
  · unfold loginUser at hl
    split at hl
    · simp at hl
    · split at hl
      · simp at hl
      · rename_i u hfindu
        split at hl
        · simp at hl
        · split at hl
          · simp at hl
          · rename_i trip hgen
            split at hl
            · simp at hl
            · rename_i u' hfind'
              injection hl with hdb hok
              injection hok with hst hdata hmsg
              subst hdb
              subst hdata
              have hid : u'.id = u.id := findUser_id_eq hfind'
              show (findUser _ u'.id).map publicView = some (publicView u')
              rw [hid, hfind']
              rfl
  · unfold registerUser at hr
    dsimp only at hr
    split at hr
    · simp at hr
    · split at hr
      · simp at hr
      · split at hr
        · simp at hr
        · rename_i trip hgen
          split at hr
          · simp at hr
          · rename_i u' hfind'
            injection hr with hdb hok
            injection hok with hst hdata hmsg
            subst hdb
            subst hdata
            have hid : u'.id = fresh := findUser_id_eq hfind'
            show (findUser _ u'.id).map publicView = some (publicView u')
            rw [hid, hfind']
            rfl

def c10User : UserDoc :=
  { id := 3, username := "bob", email := "bob@mail", fullname := "Bob",
    avatar := "", coverImage := "", watchHistory := [],
    password := bcryptHash "pw", refreshToken := none }

def c10DB : DB := { emptyDB with users := [c10User] }

def c10Saved : UserDoc :=
  { id := 3, username := "bob", email := "bob@mail", fullname := "Bob",
    avatar := "", coverImage := "", watchHistory := [],
    password := bcryptHash (bcryptHash "pw"), refreshToken := some ⟨3, 9⟩ }

def c10LoginDB : DB := { emptyDB with users := [c10Saved] }

def c10Reg : UserDoc :=
  { id := 77, username := "ann", email := "ann@mail", fullname := "Ann",
    avatar := "av.png", coverImage := "", watchHistory := [],
    password := bcryptHash "pw2", refreshToken := some ⟨77, 8⟩ }

def c10RegDB : DB := { emptyDB with users := [c10Reg] }

theorem c10_credential_non_exposure_witness :
    (findUser c10LoginDB
        (AuthResp.user ⟨publicView c10Saved, ⟨3, 9⟩, ⟨3, 9⟩⟩).id).map publicView =
      some (AuthResp.user ⟨publicView c10Saved, ⟨3, 9⟩, ⟨3, 9⟩⟩) ∧
    (findUser c10RegDB
        (AuthResp.user ⟨publicView c10Reg, ⟨77, 8⟩, ⟨77, 8⟩⟩).id).map publicView =
      some (AuthResp.user ⟨publicView c10Reg, ⟨77, 8⟩, ⟨77, 8⟩⟩) ∧
    publicView { c10User with password := "other", refreshToken := some ⟨3, 1⟩ } =
      publicView c10User :=
  c10_credential_non_exposure c10DB c10LoginDB (some "bob") none "pw" 9 200
    ⟨publicView c10Saved, ⟨3, 9⟩, ⟨3, 9⟩⟩ "User logged in successfully"
    emptyDB c10RegDB "Ann" "ann@mail" "Ann" "pw2" "av.png" 77 8 201
    ⟨publicView c10Reg, ⟨77, 8⟩, ⟨77, 8⟩⟩ "User registered successfully"
    c10User "other" (some ⟨3, 1⟩) rfl rfl

/-- The ids on one page of the threaded comment listing. -/
def commentPageIds (db : DB) (vid viewer page limit : Nat) (isOldest : Bool) :
    List Nat :=
  (pageData (getVideoComments db (some vid) viewer page limit isOldest)).map
    CommentView.id

/-- C4: pagination completeness.  With enough pages to cover all K top-level
comments of the video, concatenating the ids of pages 1..n in order yields
exactly the sorted id sequence: a permutation of the K matched ids, with no
duplicates (given globally distinct comment ids) and no omissions, and the
underlying row order is sorted by creation time per the order flag. -/
theorem c4_pagination_completeness (db : DB) (vid viewer limit pages : Nat)
    (isOldest : Bool)
    (hnodup : (db.comments.map CommentDoc.id).Nodup)
    (hcover : (topLevelComments db vid).length ≤ pages * limit) :
    pagesConcat (fun p => commentPageIds db vid viewer p limit isOldest) pages =
      (sortWith (if isOldest then byOldest else byNewest)
        (topLevelComments db vid)).map CommentDoc.id ∧
    (pagesConcat (fun p => commentPageIds db vid viewer p limit isOldest)
        pages).Perm ((topLevelComments db vid).map CommentDoc.id) ∧
    (pagesConcat (fun p => commentPageIds db vid viewer p limit isOldest)
        pages).Nodup ∧
    (sortWith (if isOldest then byOldest else byNewest)
        (topLevelComments db vid)).Pairwise
      (fun a b => (if isOldest then byOldest else byNewest) a b = true) := by
  have hfun : (fun p => commentPageIds db vid viewer p limit isOldest)
      = (fun p =>
          (((sortWith (if isOldest then byOldest else byNewest)
              (topLevelComments db vid)).map CommentDoc.id).drop
            ((p - 1) * limit)).take limit) := by
    funext p
    simp only [commentPageIds, getVideoComments, pageData, List.map_take,
      List.map_drop, List.map_map]
    rfl
  have hlen : ((sortWith (if isOldest then byOldest else byNewest)
      (topLevelComments db vid)).map CommentDoc.id).length =
      (topLevelComments db vid).length := by
    rw [List.length_map,
      (sortWith_perm (if isOldest then byOldest else byNewest)
        (topLevelComments db vid)).length_eq]
  have hmain : pagesConcat (fun p => commentPageIds db vid viewer p limit isOldest)
      pages = (sortWith (if isOldest then byOldest else byNewest)
        (topLevelComments db vid)).map CommentDoc.id := by
    rw [hfun, pagesConcat_take]
    exact List.take_of_length_le (by rw [hlen]; exact hcover)
  have htlnodup : ((topLevelComments db vid).map CommentDoc.id).Nodup := by
    have hsub : ((topLevelComments db vid).map CommentDoc.id).Sublist
        (db.comments.map CommentDoc.id) :=
      (List.filter_sublist db.comments).map CommentDoc.id
    exact hnodup.sublist hsub
  refine ⟨hmain, ?_, ?_, ?_⟩
  · rw [hmain]
    exact (sortWith_perm _ _).map CommentDoc.id
  · rw [hmain]
    exact (((sortWith_perm _ _).map CommentDoc.id).nodup_iff).2 htlnodup
  · cases isOldest with
    | false =>
      simpa using pairwise_sortWith byNewest byNewest_total byNewest_trans
        (topLevelComments db vid)
    | true =>
      simpa using pairwise_sortWith byOldest byOldest_total byOldest_trans
        (topLevelComments db vid)

def c4CommentA : CommentDoc :=
  { id := 60, content := "a", video := 50, owner := 1,
    parentComment := none, createdAt := 10 }

def c4CommentB : CommentDoc :=
  { id := 61, content := "b", video := 50, owner := 1,
    parentComment := none, createdAt := 20 }

def c4CommentC : CommentDoc :=
  { id := 62, content := "c", video := 50, owner := 1,
    parentComment := none, createdAt := 30 }

def c4DB : DB :=
  { emptyDB with comments := [c4CommentA, c4CommentB, c4CommentC] }

theorem c4_pagination_completeness_witness :
    pagesConcat (fun p => commentPageIds c4DB 50 1 p 2 false) 2 =
      (sortWith (if false then byOldest else byNewest)
        (topLevelComments c4DB 50)).map CommentDoc.id ∧
    (pagesConcat (fun p => commentPageIds c4DB 50 1 p 2 false) 2).Perm
      ((topLevelComments c4DB 50).map CommentDoc.id) ∧
    (pagesConcat (fun p => commentPageIds c4DB 50 1 p 2 false) 2).Nodup ∧
    (sortWith (if false then byOldest else byNewest)
        (topLevelComments c4DB 50)).Pairwise
      (fun a b => (if false then byOldest else byNewest) a b = true) :=
  c4_pagination_completeness c4DB 50 1 2 2 false (by decide) (by decide)

/-- C7: reply preview shape.  Every top-level entry the listing returns
previews at most 2 replies, in most-recent-first creation order, taken from
the front of the descending sort of all its replies; its replyCount counts
every stored comment whose parent is this entry; and each previewed reply is
the annotation of a stored reply of this entry, carrying its own like count,
viewer like flag and owner projection. -/
theorem c7_reply_preview_shape (db : DB) (vid viewer page limit : Nat)
    (isOldest : Bool) (a : CommentView)
    (ha : a ∈ pageData (getVideoComments db (some vid) viewer page limit isOldest)) :
    a.replies.length ≤ 2 ∧
    a.replyCount =
      (db.comments.filter (fun c => c.parentComment == some a.id)).length ∧
    a.replies.Pairwise (fun x y => y.createdAt ≤ x.createdAt) ∧
    a.replies = ((sortWith byNewest (repliesOf db a.id)).take 2).map
      (annotateReply db viewer) ∧
    ∀ r ∈ a.replies,
      r.likeCount = (db.likes.filter (fun l => l.comment == some r.id)).length ∧
      r.isLiked = ((db.likes.filter (fun l => l.comment == some r.id)).map
        LikeDoc.likedBy).contains viewer ∧
      ∃ c, c ∈ db.comments ∧ c.parentComment = some a.id ∧
        r = annotateReply db viewer c ∧ r.owner = ownerViewOf db c.owner := by
  have hmem : a ∈ (sortWith (if isOldest then byOldest else byNewest)
      (topLevelComments db vid)).map (annotateComment db viewer) := by
    simp only [getVideoComments, pageData] at ha
    exact List.mem_of_mem_drop (List.mem_of_mem_take ha)
  obtain ⟨c0, hc0, rfl⟩ := List.mem_map.1 hmem
  refine ⟨?_, rfl, ?_, rfl, ?_⟩
  · show (repliesPreview db viewer c0.id).length ≤ 2
    calc (repliesPreview db viewer c0.id).length
        = ((sortWith byNewest (repliesOf db c0.id)).take 2).length := by
          simp [repliesPreview]
      _ ≤ 2 := List.length_take_le 2 _
  · show (repliesPreview db viewer c0.id).Pairwise
      (fun x y => y.createdAt ≤ x.createdAt)
    have hp : (sortWith byNewest (repliesOf db c0.id)).Pairwise
        (fun x y => byNewest x y = true) :=
      pairwise_sortWith byNewest byNewest_total byNewest_trans _
    have hp2 : ((sortWith byNewest (repliesOf db c0.id)).take 2).Pairwise
        (fun x y => byNewest x y = true) :=
      hp.sublist (List.take_sublist 2 _)
    refine List.pairwise_map.2 (hp2.imp ?_)
    intro x y h
    simpa [byNewest] using h
  · intro r hr
    have hr' : r ∈ ((sortWith byNewest (repliesOf db c0.id)).take 2).map
        (annotateReply db viewer) := hr
    obtain ⟨c, hcmem, rfl⟩ := List.mem_map.1 hr'
    have hcrep : c ∈ repliesOf db c0.id :=
      (sortWith_perm byNewest _).mem_iff.1 (List.mem_of_mem_take hcmem)
    obtain ⟨hcdb, hcpar⟩ := List.mem_filter.1 hcrep
    refine ⟨rfl, rfl, c, hcdb, ?_, rfl, rfl⟩
    simpa using hcpar

def c7Alice : UserDoc :=
  { id := 1, username := "alice", email := "alice@mail", fullname := "Alice",
    avatar := "a.png", coverImage := "", watchHistory := [],
    password := bcryptHash "pw", refreshToken := none }

def c7Bob : UserDoc :=
  { id := 2, username := "bob", email := "bob@mail", fullname := "Bob",
    avatar := "b.png", coverImage := "", watchHistory := [],
    password := bcryptHash "pw", refreshToken := none }

def c7C1 : CommentDoc :=
  { id := 60, content := "c1", video := 50, owner := 1,
    parentComment := none, createdAt := 10 }

def c7R1 : CommentDoc :=
  { id := 61, content := "r1", video := 50, owner := 2,
    parentComment := some 60, createdAt := 11 }

def c7R2 : CommentDoc :=
  { id := 62, content := "r2", video := 50, owner := 2,
    parentComment := some 60, createdAt := 12 }

def c7DB : DB :=
  { emptyDB with
      users := [c7Alice, c7Bob],
      comments := [c7C1, c7R1, c7R2],
      videos := [{ id := 50, title := "v", owner := 1, isPublished := true }] }

theorem c7_reply_preview_shape_witness :
    (annotateComment c7DB 2 c7C1).replies.length ≤ 2 ∧
    (annotateComment c7DB 2 c7C1).replyCount =
      (c7DB.comments.filter
        (fun c => c.parentComment == some (annotateComment c7DB 2 c7C1).id)).length ∧
    (annotateComment c7DB 2 c7C1).replies.Pairwise
      (fun x y => y.createdAt ≤ x.createdAt) ∧
    (annotateComment c7DB 2 c7C1).replies =
      ((sortWith byNewest (repliesOf c7DB (annotateComment c7DB 2 c7C1).id)).take
        2).map (annotateReply c7DB 2) ∧
    ∀ r ∈ (annotateComment c7DB 2 c7C1).replies,
      r.likeCount = (c7DB.likes.filter (fun l => l.comment == some r.id)).length ∧
      r.isLiked = ((c7DB.likes.filter (fun l => l.comment == some r.id)).map
        LikeDoc.likedBy).contains 2 ∧
      ∃ c, c ∈ c7DB.comments ∧
        c.parentComment = some (annotateComment c7DB 2 c7C1).id ∧
        r = annotateReply c7DB 2 c ∧ r.owner = ownerViewOf c7DB c.owner :=
  c7_reply_preview_shape c7DB 50 2 1 10 false (annotateComment c7DB 2 c7C1)
    (by decide)

end PlayBox
